import Mathlib

/-
Verification of the contact-scraper bot (src/bot.py) against its
natural-language specification.

The embedding models the pure data flow of the program:
 * `TLUser` is the Telethon participant record with the fields read by
   `TelegramParser.parse_group` (bot.py lines 186-201);
 * `GroupWorld` records the outcome of each remote call made during one
   `parse_group` invocation (entity lookup, GetFullChannelRequest,
   linked-entity lookup, get_participants), so that `parse_group` becomes a
   total function of those outcomes — a raised exception in the Python code
   corresponds to an `err` outcome, and the `try/except` blocks correspond
   to the `err` branches returning `[]`;
 * `parse_command`, `adjust_max_contacts`, `compute_stats`, `contact_row`,
   `write_stats_row` and `do_parsing_run` embed the remaining control flow
   of bot.py (parse_command, button_callback "adj", do_parsing,
   GoogleSheetsManager.write_contacts / write_stats).
-/

namespace TgScraper

/-- A Telethon participant record, keeping exactly the fields read by
`parse_group` (bot.py lines 186-201). Optional strings model Python
`None`. -/
structure TLUser where
  id : Nat
  username : Option String
  phone : Option String
  first_name : Option String
  last_name : Option String
  bot : Bool
  deleted : Bool
deriving DecidableEq, Repr

/-- A contact dict as built at bot.py lines 194-201. -/
structure Contact where
  id : Nat
  username : String
  phone : String
  first_name : String
  last_name : String
  group : String
deriving DecidableEq, Repr

/-- Python `f"@{user.username}" if user.username else ""`: the field is
falsy when `None` or empty, otherwise tagged with the given marker
(bot.py lines 196-197). -/
def optTag (tag : String) : Option String → String
  | none => ""
  | some s => if s = "" then "" else tag ++ s

/-- Python `user.first_name or ""` (bot.py lines 198-199). -/
def orEmpty : Option String → String
  | none => ""
  | some s => s

/-- The contact dict derived from one retained member
(bot.py lines 194-201). -/
def mkContact (group_link : String) (u : TLUser) : Contact :=
  { id := u.id
    username := optTag "@" u.username
    phone := optTag "+" u.phone
    first_name := orEmpty u.first_name
    last_name := orEmpty u.last_name
    group := group_link }

/-- MAX_GROUPS_PER_RUN (bot.py line 34). -/
def MAX_GROUPS_PER_RUN : Nat := 10

/-- DEFAULT_CRITERIA max_contacts (bot.py lines 38-40). -/
def DEFAULT_MAX_CONTACTS : Nat := 10000

/-- Outcome of one remote call: a value, or a raised exception. -/
inductive CallResult (α : Type) where
  | ok (val : α)
  | err
deriving DecidableEq, Repr

/-- The one entity attribute `parse_group` branches on
(bot.py line 155). -/
structure Entity where
  broadcast : Bool
deriving DecidableEq, Repr

/-- Outcomes of the remote calls made during one `parse_group`
invocation, in program order: `client.get_entity(group_link)` (line 150),
`GetFullChannelRequest` returning `full.full_chat.linked_chat_id`
(lines 158-159), `client.get_entity(linked_chat_id)` (line 161), and
`client.get_participants(entity)` (line 174). -/
structure GroupWorld where
  getEntity : CallResult Entity
  fullChannelLinkedChat : CallResult (Option Nat)
  linkedEntity : CallResult Entity
  getParticipants : CallResult (List TLUser)
deriving Repr

/-- The truncation at bot.py lines 177-179: `if len(participants) >
max_contacts: participants = participants[:max_contacts]`. -/
def pyLimit (max_contacts : Nat) (participants : List TLUser) : List TLUser :=
  if participants.length > max_contacts then participants.take max_contacts
  else participants

/-- The member loop at bot.py lines 186-202: skip a member whose
`deleted` flag is set, otherwise append its contact. The `bot` flag is
only counted for logging (lines 191-192) and does not affect the output. -/
def collectLoop (group_link : String) : List TLUser → List Contact
  | [] => []
  | u :: rest =>
    if u.deleted then collectLoop group_link rest
    else mkContact group_link u :: collectLoop group_link rest

/-- TelegramParser.parse_group (bot.py lines 142-223) as a function of the
remote-call outcomes. Every `except` branch and every early `return []`
of the source is an explicit `[]` here; when the participant fetch
succeeds the truncated list is run through the member loop. -/
def parse_group (group_link : String) (max_contacts : Nat)
    (w : GroupWorld) : List Contact :=
  match w.getEntity with
  | .err => []
  | .ok entity =>
    if entity.broadcast then
      match w.fullChannelLinkedChat with
      | .err => []
      | .ok none => []
      | .ok (some _) =>
        match w.linkedEntity with
        | .err => []
        | .ok _ =>
          match w.getParticipants with
          | .err => []
          | .ok participants =>
              collectLoop group_link (pyLimit max_contacts participants)
    else
      match w.getParticipants with
      | .err => []
      | .ok participants =>
          collectLoop group_link (pyLimit max_contacts participants)

/-- True exactly when some remote call of the `parse_group` flow raised,
following the control flow of bot.py lines 148-223 (the missing-linked-
chat case, line 164-166, is a normal `return []`, not an error). -/
def fetch_failed (w : GroupWorld) : Bool :=
  match w.getEntity with
  | .err => true
  | .ok entity =>
    if entity.broadcast then
      match w.fullChannelLinkedChat with
      | .err => true
      | .ok none => false
      | .ok (some _) =>
        match w.linkedEntity with
        | .err => true
        | .ok _ =>
          match w.getParticipants with
          | .err => true
          | .ok _ => false
    else
      match w.getParticipants with
      | .err => true
      | .ok _ => false

/-- The "adj" button handler (bot.py line 280): `new_val = 1000 if
criteria[max_contacts] >= 10000 else criteria[max_contacts] + 1000`. -/
def adjust_max_contacts (current : Nat) : Nat :=
  if current ≥ 10000 then 1000 else current + 1000

/-- Python truthiness count `sum(1 for c in all_contacts if
c.get("username"))` (bot.py line 355): a dict string value is truthy iff
non-empty. -/
def count_with_username (cs : List Contact) : Nat :=
  (cs.filter (fun c => c.username != "")).length

/-- `sum(1 for c in all_contacts if c.get("phone"))` (bot.py line 356). -/
def count_with_phone (cs : List Contact) : Nat :=
  (cs.filter (fun c => c.phone != "")).length

/-- The stats dict built in do_parsing (bot.py lines 352-358). -/
structure RunStats where
  groups_parsed : Nat
  total_contacts : Nat
  with_username : Nat
  with_phone : Nat
  duration_sec : Nat
deriving DecidableEq, Repr

/-- Building the stats dict at run end (bot.py lines 352-358). -/
def compute_stats (groups : List String) (all_contacts : List Contact)
    (duration : Nat) : RunStats :=
  { groups_parsed := groups.length
    total_contacts := all_contacts.length
    with_username := count_with_username all_contacts
    with_phone := count_with_phone all_contacts
    duration_sec := duration }

/-- A spreadsheet cell: the rows mix integers and strings. -/
inductive Cell where
  | str (s : String)
  | num (n : Nat)
deriving DecidableEq, Repr

/-- One contact row as appended by GoogleSheetsManager.write_contacts
(bot.py lines 88-97): id, username, phone, first name, last name, group,
a literal 0, two blank columns, timestamp. -/
def contact_row (now : String) (c : Contact) : List Cell :=
  [.num c.id, .str c.username, .str c.phone, .str c.first_name,
   .str c.last_name, .str c.group, .num 0, .str "", .str "", .str now]

/-- GoogleSheetsManager.write_contacts (bot.py lines 80-99): a no-op on an
empty list, otherwise one appended row per contact. -/
def write_contacts_rows (now : String) (contacts : List Contact) :
    List (List Cell) :=
  if contacts.isEmpty then [] else contacts.map (contact_row now)

/-- The stats row appended by GoogleSheetsManager.write_stats
(bot.py lines 107-115): timestamp, groups parsed, total contacts,
with-username count, with-phone count, duration, and a literal 0 in the
error-count column. -/
def write_stats_row (now : String) (stats : RunStats) : List Cell :=
  [.str now, .num stats.groups_parsed, .num stats.total_contacts,
   .num stats.with_username, .num stats.with_phone,
   .num stats.duration_sec, .num 0]

/-- The accumulation loop of do_parsing (bot.py lines 322-333):
`all_contacts.extend(parser.parse_group(group, max_contacts))` over the
requested groups, each paired with its remote-call outcomes. -/
def run_collect (max_contacts : Nat) (runs : List (String × GroupWorld)) :
    List Contact :=
  (runs.map (fun r => parse_group r.1 max_contacts r.2)).flatten

/-- What one do_parsing run produces: the accumulated contacts, the rows
handed to the spreadsheet writer, the optional stats row, and the summary
counters reported to the requester. -/
structure RunOutcome where
  all_contacts : List Contact
  contact_rows : List (List Cell)
  stats_row : Option (List Cell)
  summary : RunStats
deriving Repr

/-- do_parsing after a successful connection (bot.py lines 321-373):
collect per group, then — only when contacts were collected — write the
contact rows and the stats row; the summary counters (lines 363-371) are
always computed from the in-memory list. -/
def do_parsing_run (max_contacts : Nat) (now : String) (duration : Nat)
    (runs : List (String × GroupWorld)) : RunOutcome :=
  let groups := runs.map (fun r => r.1)
  let all := run_collect max_contacts runs
  let stats := compute_stats groups all duration
  { all_contacts := all
    contact_rows := if all.isEmpty then [] else write_contacts_rows now all
    stats_row := if all.isEmpty then none else some (write_stats_row now stats)
    summary := stats }

/-- Python `' '.join(args).replace(',', ' ').split()` with the
per-token `strip()` filter (bot.py lines 249-250), modelled one character
at a time: a comma is a separator because `replace(',', ' ')` turns it
into a space before `split()` runs; `split()` drops empty tokens, which
also subsumes the `if g.strip()` filter. -/
def pyTokensAux (cs : List Char) (acc : List Char) : List String :=
  match cs with
  | [] => if acc.isEmpty then [] else [String.mk acc.reverse]
  | c :: rest =>
    if c = ' ' ∨ c = ',' then
      if acc.isEmpty then pyTokensAux rest []
      else String.mk acc.reverse :: pyTokensAux rest []
    else pyTokensAux rest (c :: acc)

/-- The group list extracted by parse_command (bot.py lines 249-250). -/
def split_groups (args : List String) : List String :=
  pyTokensAux (String.intercalate " " args).data []

/-- What parse_command replies with (bot.py lines 242-266): an error text
when no argument was given, an error text when the group list exceeds
MAX_GROUPS_PER_RUN, or the settings keyboard carrying the group list and
the requester's current max_contacts. Only the keyboard's go-button can
lead to do_parsing, and hence to any messaging-client call. -/
inductive ParseCmdResult where
  | noArgs
  | tooManyGroups
  | settingsKeyboard (groups : List String) (max_contacts : Nat)
deriving DecidableEq, Repr

/-- parse_command (bot.py lines 242-266) as a pure function of the
command arguments and the requester's stored max_contacts. -/
def parse_command (args : List String) (criteria_max : Nat) :
    ParseCmdResult :=
  if args.isEmpty then .noArgs
  else
    let groups := split_groups args
    if groups.length > MAX_GROUPS_PER_RUN then .tooManyGroups
    else .settingsKeyboard groups criteria_max

/-- The group list a parse_command reply can hand to the go-button
callback (bot.py lines 260, 274-277): only the settings keyboard carries
one. -/
def keyboard_groups : ParseCmdResult → Option (List String)
  | .settingsKeyboard groups _ => some groups
  | _ => none

/-- A non-deleted member of the processed list contributes its contact to
the loop's output, whatever its other flags. -/
theorem collectLoop_mem (g : String) (u : TLUser) :
    ∀ l : List TLUser, u ∈ l → u.deleted = false →
      mkContact g u ∈ collectLoop g l := by
  intro l
  induction l with
  | nil => intro hu _; cases hu
  | cons v rest ih =>
    intro hu hd
    rcases List.mem_cons.mp hu with h | h
    · subst h
      simp [collectLoop, hd]
    · by_cases hv : v.deleted = true
      · simpa [collectLoop, hv] using ih h hd
      · have : mkContact g u ∈ collectLoop g rest := ih h hd
        simp [collectLoop, hv]
        exact Or.inr this

/-- Every contact emitted by the member loop comes from a member of the
processed list whose deleted flag is clear. -/
theorem collectLoop_sound (g : String) (c : Contact) :
    ∀ l : List TLUser, c ∈ collectLoop g l →
      ∃ u ∈ l, u.deleted = false ∧ c = mkContact g u := by
  intro l
  induction l with
  | nil => intro hc; cases hc
  | cons v rest ih =>
    intro hc
    by_cases hv : v.deleted = true
    · have hc2 : c ∈ collectLoop g rest := by
        simpa [collectLoop, hv] using hc
      obtain ⟨u, hu, hd, he⟩ := ih hc2
      exact ⟨u, List.mem_cons_of_mem _ hu, hd, he⟩
    · have hc2 : c = mkContact g v ∨ c ∈ collectLoop g rest := by
        simpa [collectLoop, hv] using hc
      rcases hc2 with h | h
      · exact ⟨v, List.mem_cons_self _ _, by simpa using hv, h⟩
      · obtain ⟨u, hu, hd, he⟩ := ih h
        exact ⟨u, List.mem_cons_of_mem _ hu, hd, he⟩

/-- The member loop never emits more contacts than it processes
members. -/
theorem collectLoop_length_le (g : String) :
    ∀ l : List TLUser, (collectLoop g l).length ≤ l.length := by
  intro l
  induction l with
  | nil => simp [collectLoop]
  | cons v rest ih =>
    by_cases hv : v.deleted = true <;> simp [collectLoop, hv] <;> omega

/-- The truncation step never keeps more than `max_contacts` members. -/
theorem pyLimit_length_le (m : Nat) (l : List TLUser) :
    (pyLimit m l).length ≤ m := by
  unfold pyLimit
  by_cases h : l.length > m
  · rw [if_pos h]
    simp [List.length_take]
  · rw [if_neg h]
    omega

/-- parse_group either returns the empty list or runs the member loop on
the truncated participant list. -/
theorem parse_group_cases (g : String) (m : Nat) (w : GroupWorld) :
    parse_group g m w = [] ∨
    ∃ ps, w.getParticipants = CallResult.ok ps ∧
      parse_group g m w = collectLoop g (pyLimit m ps) := by
  obtain ⟨ge, fc, le, gp⟩ := w
  cases ge with
  | err => exact Or.inl rfl
  | ok entity =>
    obtain ⟨b⟩ := entity
    cases b with
    | false =>
      cases gp with
      | err => exact Or.inl rfl
      | ok ps => exact Or.inr ⟨ps, rfl, rfl⟩
    | true =>
      cases fc with
      | err => exact Or.inl rfl
      | ok linked =>
        cases linked with
        | none => exact Or.inl rfl
        | some cid =>
          cases le with
          | err => exact Or.inl rfl
          | ok e2 =>
            cases gp with
            | err => exact Or.inl rfl
            | ok ps => exact Or.inr ⟨ps, rfl, rfl⟩

/-- True exactly when the parse_group control flow reaches the member
loop at bot.py line 186: either the entity is a plain group and the
participant fetch succeeds, or it is a broadcast channel whose
full-channel data names a linked discussion group, the linked entity
resolves, and the participant fetch succeeds (bot.py lines 148-186). -/
def reached_loop (w : GroupWorld) : Bool :=
  match w.getEntity with
  | .err => false
  | .ok entity =>
    if entity.broadcast then
      match w.fullChannelLinkedChat with
      | .err => false
      | .ok none => false
      | .ok (some _) =>
        match w.linkedEntity with
        | .err => false
        | .ok _ =>
          match w.getParticipants with
          | .err => false
          | .ok _ => true
    else
      match w.getParticipants with
      | .err => false
      | .ok _ => true

/-- Whenever the control flow reaches the member loop — on the plain-group
path or on the channel-to-linked-discussion-group path — parse_group is
exactly the member loop on the truncated participant list. -/
theorem parse_group_loop_of_reached (g : String) (m : Nat) (w : GroupWorld)
    (hr : reached_loop w = true) :
    ∃ ps, w.getParticipants = CallResult.ok ps ∧
      parse_group g m w = collectLoop g (pyLimit m ps) := by
  obtain ⟨ge, fc, le, gp⟩ := w
  cases ge with
  | err => simp [reached_loop] at hr
  | ok entity =>
    obtain ⟨b⟩ := entity
    cases b with
    | false =>
      cases gp with
      | err => simp [reached_loop] at hr
      | ok ps => exact ⟨ps, rfl, rfl⟩
    | true =>
      cases fc with
      | err => simp [reached_loop] at hr
      | ok linked =>
        cases linked with
        | none => simp [reached_loop] at hr
        | some cid =>
          cases le with
          | err => simp [reached_loop] at hr
          | ok e2 =>
            cases gp with
            | err => simp [reached_loop] at hr
            | ok ps => exact ⟨ps, rfl, rfl⟩

/-- A bot-flagged, non-deleted member used as a concrete input. -/
def botMember : TLUser :=
  { id := 777, username := some "helper_account", phone := none,
    first_name := some "Helper", last_name := none,
    bot := true, deleted := false }

/-- A run in which the group resolves directly and its only participant
is `botMember`. -/
def botWorld : GroupWorld :=
  { getEntity := .ok ⟨false⟩
    fullChannelLinkedChat := .err
    linkedEntity := .err
    getParticipants := .ok [botMember] }

/-- C1: the spec states that no returned contact corresponds to a
bot-flagged member when exclude_bots is set. The code as written fails
this: no exclude_bots setting exists anywhere in bot.py (the per-user
criteria hold only max_contacts), and the member loop at lines 186-202
only counts bots (lines 191-192) without skipping them. Concretely, a run
over a group whose sole participant is a bot-flagged, non-deleted member
returns that member's contact. -/
theorem C1_counterexample :
    botMember.bot = true ∧
    parse_group "@g" 10000 botWorld = [mkContact "@g" botMember] :=
  ⟨rfl, rfl⟩

/-- C1 (amended): bot.py has no exclude_bots setting and parse_group
applies no bot filter; on every path that reaches the member loop — the
plain-group path as well as the channel-to-linked-discussion-group path —
the contact of any bot-flagged, non-deleted member that survives the
truncation is present in the returned sequence. -/
theorem C1_bots_included (g : String) (m : Nat) (w : GroupWorld)
    (ps : List TLUser) (u : TLUser)
    (hr : reached_loop w = true)
    (hP : w.getParticipants = CallResult.ok ps)
    (hu : u ∈ pyLimit m ps) (_hbot : u.bot = true)
    (hd : u.deleted = false) :
    mkContact g u ∈ parse_group g m w := by
  obtain ⟨ps2, hP2, h⟩ := parse_group_loop_of_reached g m w hr
  injection hP.symm.trans hP2 with hps
  subst hps
  rw [h]
  exact collectLoop_mem g u _ hu hd

/-- A run that takes the channel path: a broadcast channel with a linked
discussion group whose only participant is `botMember`. -/
def channelBotWorld : GroupWorld :=
  { getEntity := .ok ⟨true⟩
    fullChannelLinkedChat := .ok (some 42)
    linkedEntity := .ok ⟨false⟩
    getParticipants := .ok [botMember] }

/-- C1 (amended) at a concrete input on the channel path: the bot-flagged
member of the linked discussion group contributes its contact to the
output. -/
theorem C1_bots_included_witness :
    mkContact "@chan" botMember ∈ parse_group "@chan" 10000 channelBotWorld :=
  C1_bots_included "@chan" 10000 channelBotWorld [botMember] botMember
    rfl rfl (by decide) rfl rfl

/-- A member whose deleted flag is set. -/
def deletedMember : TLUser :=
  { id := 9, username := some "ghost", phone := none,
    first_name := none, last_name := none,
    bot := false, deleted := true }

/-- A run whose group resolves directly and whose participant list mixes
a deleted member with `botMember`. -/
def mixedWorld : GroupWorld :=
  { getEntity := .ok ⟨false⟩
    fullChannelLinkedChat := .err
    linkedEntity := .err
    getParticipants := .ok [deletedMember, botMember] }

/-- C2: every contact returned by parse_group is derived from a member of
the truncated participant list whose deleted flag is clear — deleted
accounts are excluded unconditionally (bot.py lines 187-189), for every
participant list, every limit and every remote-call outcome. In
particular a participant list all of whose members are deleted yields no
contact at all. -/
theorem C2_no_deleted (g : String) (m : Nat) (w : GroupWorld)
    (ps : List TLUser) (hP : w.getParticipants = CallResult.ok ps)
    (c : Contact) (hc : c ∈ parse_group g m w) :
    ∃ u ∈ pyLimit m ps, u.deleted = false ∧ c = mkContact g u := by
  rcases parse_group_cases g m w with h | ⟨ps2, hP2, h⟩
  · rw [h] at hc
    cases hc
  · injection hP.symm.trans hP2 with hps
    subst hps
    rw [h] at hc
    exact collectLoop_sound g c _ hc

/-- C2 at a concrete input: over a participant list holding a deleted
member and a live one, the returned contact comes from a non-deleted
member of that list. -/
theorem C2_no_deleted_witness :
    ∃ u ∈ pyLimit 10000 [deletedMember, botMember], u.deleted = false ∧
      mkContact "@gm" botMember = mkContact "@gm" u :=
  C2_no_deleted "@gm" 10000 mixedWorld [deletedMember, botMember] rfl
    (mkContact "@gm" botMember) (by decide)

/-- C3: for every entity, every limit and every remote-call outcome, the
contact sequence returned by parse_group has length at most max_contacts:
the participant list is sliced to max_contacts before the member loop
(bot.py lines 177-179), and the loop only ever drops members. -/
theorem C3_bounded (g : String) (m : Nat) (w : GroupWorld) :
    (parse_group g m w).length ≤ m := by
  rcases parse_group_cases g m w with h | ⟨ps, _, h⟩
  · simp [h]
  · rw [h]
    exact le_trans (collectLoop_length_le g _) (pyLimit_length_le m ps)

/-- C4: a broadcast channel whose full-channel data shows no linked
discussion group makes parse_group return the empty sequence (bot.py
lines 155-166, the `return []` at line 166), and such a group contributes
nothing to the run's accumulated contact list. -/
theorem C4_channel_no_link (g : String) (m : Nat) (w : GroupWorld)
    (e : Entity)
    (hE : w.getEntity = CallResult.ok e) (hb : e.broadcast = true)
    (hF : w.fullChannelLinkedChat = CallResult.ok none) :
    parse_group g m w = [] ∧
    ∀ rest : List (String × GroupWorld),
      run_collect m ((g, w) :: rest) = run_collect m rest := by
  have h0 : parse_group g m w = [] := by
    obtain ⟨ge, fc, le, gp⟩ := w
    have h1 : ge = CallResult.ok e := hE
    have h2 : fc = CallResult.ok none := hF
    subst h1
    subst h2
    obtain ⟨b⟩ := e
    have h3 : b = true := hb
    subst h3
    rfl
  refine ⟨h0, fun rest => ?_⟩
  simp [run_collect, h0]

/-- A run in which the group resolves to a broadcast channel whose
full-channel data has no linked discussion group. -/
def noLinkWorld : GroupWorld :=
  { getEntity := .ok ⟨true⟩
    fullChannelLinkedChat := .ok none
    linkedEntity := .err
    getParticipants := .ok [botMember] }

/-- C4 at a concrete input: the linked-chat-less channel yields the empty
sequence. -/
theorem C4_channel_no_link_witness :
    parse_group "@chan" 5000 noLinkWorld = [] :=
  (C4_channel_no_link "@chan" 5000 noLinkWorld ⟨true⟩ rfl rfl rfl).1

/-- C5: whenever some remote call of the parse_group flow raises — entity
lookup, full-channel request, linked-entity lookup or participant fetch —
parse_group returns the empty sequence; the embedding of parse_group as a
total function is the no-propagation guarantee of the try/except blocks
at bot.py lines 148-223. -/
theorem C5_errors_empty (g : String) (m : Nat) (w : GroupWorld)
    (h : fetch_failed w = true) : parse_group g m w = [] := by
  obtain ⟨ge, fc, le, gp⟩ := w
  cases ge with
  | err => rfl
  | ok entity =>
    obtain ⟨b⟩ := entity
    cases b with
    | false =>
      cases gp with
      | err => rfl
      | ok ps => simp [fetch_failed] at h
    | true =>
      cases fc with
      | err => rfl
      | ok linked =>
        cases linked with
        | none => simp [fetch_failed] at h
        | some cid =>
          cases le with
          | err => rfl
          | ok e2 =>
            cases gp with
            | err => rfl
            | ok ps => simp [fetch_failed] at h

/-- A run whose entity lookup raises. -/
def errWorld : GroupWorld :=
  { getEntity := .err
    fullChannelLinkedChat := .err
    linkedEntity := .err
    getParticipants := .err }

/-- C5 at a concrete input: a failed entity lookup yields the empty
sequence. -/
theorem C5_errors_empty_witness : parse_group "@x" 1000 errWorld = [] :=
  C5_errors_empty "@x" 1000 errWorld rfl

/-- C6: one adjustment interaction (the "adj" button, bot.py line 280)
adds the fixed step 1000 to any stored value strictly below the ceiling
10000 — a strict increase — and the adjustment performed at the ceiling
wraps the value around to the floor 1000 rather than clamping it. -/
theorem C6_adjust_cycle (v : Nat) :
    (v < 10000 →
      adjust_max_contacts v = v + 1000 ∧ v < adjust_max_contacts v) ∧
    (v = 10000 → adjust_max_contacts v = 1000) := by
  constructor
  · intro h
    unfold adjust_max_contacts
    rw [if_neg (by omega)]
    exact ⟨rfl, by omega⟩
  · intro h
    subst h
    rfl

/-- C6 at concrete inputs: one step below the ceiling increases by 1000,
and the step at the ceiling wraps to the floor. -/
theorem C6_adjust_cycle_witness :
    adjust_max_contacts 9000 = 10000 ∧ adjust_max_contacts 10000 = 1000 :=
  ⟨((C6_adjust_cycle 9000).1 (by decide)).1, (C6_adjust_cycle 10000).2 rfl⟩

/-- C7: the stats computed at run end (bot.py lines 352-358) are
internally consistent: the with-username and with-phone counts are
lengths of filtered sublists of the collected contact list, hence at most
total_contacts. -/
theorem C7_stats_consistent (groups : List String) (cs : List Contact)
    (d : Nat) :
    (compute_stats groups cs d).with_username ≤
      (compute_stats groups cs d).total_contacts ∧
    (compute_stats groups cs d).with_phone ≤
      (compute_stats groups cs d).total_contacts := by
  refine ⟨?_, ?_⟩ <;>
    simp only [compute_stats, count_with_username, count_with_phone] <;>
    exact List.length_filter_le _ _

/-- C8: a parse command whose extracted group list exceeds
MAX_GROUPS_PER_RUN = 10 is answered with the too-many-groups error
(bot.py lines 252-254); the reply carries no settings keyboard, so no
go-button and hence no messaging-client call can follow from it —
parse_command itself performs none. -/
theorem C8_reject_over_limit (args : List String) (criteria_max : Nat)
    (h : (split_groups args).length > MAX_GROUPS_PER_RUN) :
    parse_command args criteria_max = ParseCmdResult.tooManyGroups ∧
    keyboard_groups (parse_command args criteria_max) = none := by
  have ha : args.isEmpty = false := by
    cases args with
    | nil => exact absurd h (by decide)
    | cons a as => rfl
  have hp : parse_command args criteria_max =
      ParseCmdResult.tooManyGroups := by
    unfold parse_command
    rw [ha]
    simp [h]
  exact ⟨hp, by rw [hp]; rfl⟩

/-- C8 at a concrete input: eleven comma-separated groups are rejected. -/
theorem C8_reject_over_limit_witness :
    parse_command ["a,b,c,d,e,f,g,h,i,j,k"] DEFAULT_MAX_CONTACTS =
      ParseCmdResult.tooManyGroups :=
  (C8_reject_over_limit ["a,b,c,d,e,f,g,h,i,j,k"] DEFAULT_MAX_CONTACTS
    (by decide)).1

/-- C9: for any run with at least one collected contact, the summary
reports groups_parsed equal to the number of requested groups and
total_contacts equal to the sum of the per-group contact counts, the
spreadsheet write is attempted with exactly one row per collected
contact, and the with-username count is the truthiness count over the
accumulated list (bot.py lines 325-373 and 80-99). -/
theorem C9_summary_and_rows (m : Nat) (now : String) (d : Nat)
    (runs : List (String × GroupWorld))
    (h : (run_collect m runs).isEmpty = false) :
    (do_parsing_run m now d runs).summary.groups_parsed = runs.length ∧
    (do_parsing_run m now d runs).summary.total_contacts =
      (runs.map (fun r => (parse_group r.1 m r.2).length)).sum ∧
    (do_parsing_run m now d runs).contact_rows.length =
      (do_parsing_run m now d runs).all_contacts.length ∧
    (do_parsing_run m now d runs).summary.with_username =
      count_with_username (do_parsing_run m now d runs).all_contacts := by
  refine ⟨?_, ?_, ?_, ?_⟩
  · simp [do_parsing_run, compute_stats]
  · simp [do_parsing_run, compute_stats, run_collect, List.map_map]
    rfl
  · simp [do_parsing_run, write_contacts_rows, h]
  · simp [do_parsing_run, compute_stats]

/-- A participant with handle and phone. -/
def memberA : TLUser :=
  { id := 1, username := some "alice", phone := some "111",
    first_name := some "Alice", last_name := none,
    bot := false, deleted := false }

/-- A participant with neither handle nor phone. -/
def memberB : TLUser :=
  { id := 2, username := none, phone := none,
    first_name := some "Bob", last_name := none,
    bot := false, deleted := false }

/-- A participant with a handle only. -/
def memberC : TLUser :=
  { id := 3, username := some "carol", phone := none,
    first_name := none, last_name := some "C",
    bot := false, deleted := false }

/-- A run whose group resolves directly and yields three members, two of
them with handles. -/
def goodWorld : GroupWorld :=
  { getEntity := .ok ⟨false⟩
    fullChannelLinkedChat := .err
    linkedEntity := .err
    getParticipants := .ok [memberA, memberB, memberC] }

/-- The spec's two-group scenario: the first group yields three contacts,
the second fails to resolve. -/
def scenarioRuns : List (String × GroupWorld) :=
  [("@a", goodWorld), ("@b", errWorld)]

/-- C9 at the spec's scenario: two groups, the first yields 3 contacts
with 2 handles, the second fails — the summary reports groups=2, total=3,
with_username=2, and exactly 3 contact rows are written. -/
theorem C9_summary_and_rows_witness :
    (do_parsing_run 10000 "t" 1 scenarioRuns).summary.groups_parsed = 2 ∧
    (do_parsing_run 10000 "t" 1 scenarioRuns).summary.total_contacts = 3 ∧
    (do_parsing_run 10000 "t" 1 scenarioRuns).contact_rows.length = 3 ∧
    (do_parsing_run 10000 "t" 1 scenarioRuns).summary.with_username = 2 := by
  obtain ⟨h1, h2, h3, h4⟩ :=
    C9_summary_and_rows 10000 "t" 1 scenarioRuns (by decide)
  exact ⟨h1, h2.trans (by decide), h3.trans (by decide),
    h4.trans (by decide)⟩

/-- C10: the error-count column — the last cell of the persisted stats
row (bot.py line 114) — is the literal 0 for every RunStats, however many
groups failed during the run. -/
theorem C10_error_col_zero (now : String) (stats : RunStats) :
    (write_stats_row now stats).length = 7 ∧
    (write_stats_row now stats).getLast? = some (Cell.num 0) :=
  ⟨rfl, rfl⟩

end TgScraper

